import Mathlib

/-!
Shallow embedding of the three standalone adapter scripts of this repository
(`src/server/Engine/text.py`, `src/server/Engine/image.py`,
`src/server/Engine/voice.py`).

Each script is a straight-line program that reads a free-text input, makes at
most two outbound network calls, and prints JSON envelopes to standard output,
possibly calling `sys.exit(1)`.  We embed each script as a total function from

  * the credential environment variable (`Option String`, `none` = unset),
  * the already-acquired user input string (argument joining / interactive
    reading happens before the logic the claims are about), and
  * the behaviour of the external services (given as explicit outcome values,
    since the network is outside the program)

to a `ProcOutcome`: the list of JSON objects printed to stdout, the process
exit code, whether an exception escaped uncaught (producing a traceback on
stderr), and how many outbound network calls were attempted.  The speech
adapter additionally yields the ordered trace of synthesis attempts.

The embedding assumes the `huggingface_hub` import at the top of the speech
adapter's `try` block succeeds (it is a declared dependency); everything after
that point is modelled faithfully, including the control flow of Python
exception handling (`sys.exit` raises `SystemExit`, which `except Exception`
does not catch; `except KeyError` does not catch `IndexError`/`TypeError`).
-/

namespace MultiTool

/-- JSON values, as produced by `json.dumps` of the Python dictionaries the
scripts build (objects keep insertion order, mirroring Python dicts). -/
inductive Json where
  | str : String → Json
  | bool : Bool → Json
  | num : Int → Json
  | arr : List Json → Json
  | obj : List (String × Json) → Json

/-- Field lookup in a JSON object (`none` on non-objects or absent keys). -/
def Json.lookup : Json → String → Option Json
  | .obj fields, k => List.lookup k fields
  | _, _ => none

/-- Observable outcome of one process invocation. -/
structure ProcOutcome where
  /-- The JSON objects printed to standard output, in order. -/
  stdoutJson : List Json
  /-- The process exit code. -/
  exitCode : Nat
  /-- Whether an exception escaped uncaught (Python then prints a traceback to
  stderr and exits with code 1; nothing is printed to stdout). -/
  uncaught : Bool
  /-- Number of outbound network calls attempted during the run (an attempt
  that itself raises still counts). -/
  netCalls : Nat

/-- The single JSON object a run prints, when there is one. -/
def firstOut (o : ProcOutcome) : Json := o.stdoutJson.headD (Json.obj [])

/-- Python truthiness of the credential: `if not api_key` fires when the
environment variable is unset (`os.environ.get` returns `None`) or set to the
empty string. -/
def credTruthy : Option String → Bool
  | none => false
  | some s => !(s == "")

/-- Python string slicing `s[:n]`: the first `n` characters. -/
def pyTrunc (s : String) (n : Nat) : String := String.mk (s.toList.take n)

/-! ### Base64 (`base64.b64encode(...).decode('utf-8')`) -/

/-- The standard base64 alphabet. -/
def base64Chars : String :=
  "ABCDEFGHIJKLMNOPQRSTUVWXYZabcdefghijklmnopqrstuvwxyz0123456789+/"

/-- The base64 digit for a 6-bit value. -/
def b64Char (n : Nat) : Char := base64Chars.toList.getD n 'A'

/-- Standard base64 encoding of a byte sequence (bytes as naturals `< 256`),
with `=` padding, as produced by Python's `base64.b64encode`. -/
def base64Encode : List Nat → String
  | [] => ""
  | [b1] =>
      String.mk [b64Char (b1 / 4 % 64), b64Char (b1 % 4 * 16), '=', '=']
  | [b1, b2] =>
      String.mk [b64Char (b1 / 4 % 64), b64Char (b1 % 4 * 16 + b2 / 16 % 16),
        b64Char (b2 % 16 * 4), '=']
  | b1 :: b2 :: b3 :: rest =>
      String.mk [b64Char (b1 / 4 % 64), b64Char (b1 % 4 * 16 + b2 / 16 % 16),
        b64Char (b2 % 16 * 4 + b3 / 64 % 4), b64Char (b3 % 64)]
        ++ base64Encode rest

/-! ### Python exceptions raised while indexing into a decoded JSON value -/

/-- The exceptions the extraction chain of the text adapter can raise.
`keyError shown` carries `str(e)` of the `KeyError` (Python shows the `repr`
of the missing key); everything else (`IndexError`, `TypeError`) is only ever
caught by a generic `except Exception`, so we carry just `str(e)`. -/
inductive PyErr where
  | keyError (shown : String)
  | other (msg : String)

/-- Rendering str(e) for the exception. -/
def PyErr.shownStr : PyErr → String
  | .keyError s => s
  | .other s => s

/-- Python subscripting `v[k]` with a string key, on a decoded JSON value:
object lookup on dicts (raising `KeyError` when absent), `TypeError`
otherwise, with CPython's messages. -/
def Json.pyGetStr : Json → String → Except PyErr Json
  | .obj fields, k =>
      match List.lookup k fields with
      | some v => .ok v
      | none => .error (.keyError ("'" ++ k ++ "'"))
  | .arr _, _ => .error (.other "list indices must be integers or slices, not str")
  | .str _, _ => .error (.other "string indices must be integers")
  | .num _, _ => .error (.other "'int' object is not subscriptable")
  | .bool _, _ => .error (.other "'bool' object is not subscriptable")

/-- Python subscripting `v[i]` with an integer index, on a decoded JSON value:
list indexing (raising `IndexError` past the end), one-character strings on
strings, `KeyError` on dicts, `TypeError` otherwise. -/
def Json.pyGetNat : Json → Nat → Except PyErr Json
  | .arr xs, i =>
      match xs.get? i with
      | some v => .ok v
      | none => .error (.other "list index out of range")
  | .obj _, i => .error (.keyError (toString i))
  | .str s, i =>
      match s.toList.get? i with
      | some c => .ok (.str (String.mk [c]))
      | none => .error (.other "string index out of range")
  | .num _, _ => .error (.other "'int' object is not subscriptable")
  | .bool _, _ => .error (.other "'bool' object is not subscriptable")

/-! ### Text adapter (`src/server/Engine/text.py`) -/

/-- The instruction template the text adapter wraps the user input in. -/
def promptTemplate (userInput : String) : String :=
  "You are a text generator agent, Please provide a clear, well-structured paragraph response to the following question. Focus on giving a comprehensive answer in flowing paragraph format without bullet points or lists:\n\n"
    ++ userInput

/-- Behaviour of the chat-completion endpoint as seen through
`requests.post` + `response.raise_for_status()` + `response.json()`. -/
inductive TextUpstream where
  /-- `requests.exceptions.RequestException` (transport error, or a bad HTTP
  status surfaced by `raise_for_status`), with `str(e)`. -/
  | requestError (msg : String)
  /-- any other exception out of the request/decoding, with `str(e)`. -/
  | otherError (msg : String)
  /-- a 2xx response whose body decoded to the given JSON value. -/
  | ok (body : Json)

/-- Extraction `content = response["choices"][0]["message"]["content"]` -/
def extractContent (response : Json) : Except PyErr Json := do
  let choices ← response.pyGetStr "choices"
  let first ← choices.pyGetNat 0
  let message ← first.pyGetStr "message"
  message.pyGetStr "content"

/-- The whole run of `text.py` after the user input has been acquired:
credential check, `query` (which prints a failure envelope and calls
`sys.exit(1)` on any request exception — `SystemExit` passes through the outer
`except Exception`), extraction with its `except KeyError`, and the outer
`except Exception` that prints a script-execution failure and exits 1. -/
def textAdapter (apiKey : Option String) (userInput : String)
    (upstream : TextUpstream) : ProcOutcome :=
  if credTruthy apiKey then
    match upstream with
    | .requestError msg =>
        { stdoutJson := [.obj [("success", .bool false),
            ("error", .str ("Request failed: " ++ msg))]],
          exitCode := 1, uncaught := false, netCalls := 1 }
    | .otherError msg =>
        { stdoutJson := [.obj [("success", .bool false),
            ("error", .str ("Unexpected error: " ++ msg))]],
          exitCode := 1, uncaught := false, netCalls := 1 }
    | .ok body =>
        match extractContent body with
        | .ok content =>
            { stdoutJson := [.obj [("success", .bool true),
                ("content", content), ("prompt", .str userInput)]],
              exitCode := 0, uncaught := false, netCalls := 1 }
        | .error (.keyError shown) =>
            { stdoutJson := [.obj [("success", .bool false),
                ("error", .str ("Error extracting response: " ++ shown)),
                ("response", body)]],
              exitCode := 0, uncaught := false, netCalls := 1 }
        | .error (.other msg) =>
            { stdoutJson := [.obj [("success", .bool false),
                ("error", .str ("Script execution error: " ++ msg))]],
              exitCode := 1, uncaught := false, netCalls := 1 }
  else
    { stdoutJson := [.obj [("success", .bool false),
        ("error", .str "HUGGINGFACE_API_KEY environment variable not found")]],
      exitCode := 1, uncaught := false, netCalls := 0 }

/-! ### Image adapter (`src/server/Engine/image.py`) -/

/-- Behaviour of the image-generation endpoint as seen through the bare
`requests.post` call (which is NOT inside any `try` block in `image.py`). -/
inductive ImageUpstream where
  /-- `requests.post` itself raises (e.g. a transport error). -/
  | raises (msg : String)
  /-- a response with the given status code, raw body bytes, and body text. -/
  | responds (status : Nat) (content : List Nat) (text : String)

/-- The whole run of `image.py` after the user prompt has been acquired.
An exception from `requests.post` is uncaught: Python prints a traceback to
stderr and exits with code 1, and nothing reaches stdout. -/
def imageAdapter (apiKey : Option String) (userPrompt : String)
    (upstream : ImageUpstream) : ProcOutcome :=
  if credTruthy apiKey then
    match upstream with
    | .raises _ =>
        { stdoutJson := [], exitCode := 1, uncaught := true, netCalls := 1 }
    | .responds status content text =>
        if status = 200 then
          { stdoutJson := [.obj [("success", .bool true),
              ("image_data",
                .str ("data:image/png;base64," ++ base64Encode content)),
              ("prompt", .str userPrompt)]],
            exitCode := 0, uncaught := false, netCalls := 1 }
        else if status = 503 then
          { stdoutJson := [.obj [("success", .bool false),
              ("error", .str "Model is loading, please try again in a few minutes")]],
            exitCode := 0, uncaught := false, netCalls := 1 }
        else
          { stdoutJson := [.obj [("success", .bool false),
              ("error", .str ("API Error " ++ toString status ++ ": " ++ text))]],
            exitCode := 0, uncaught := false, netCalls := 1 }
  else
    { stdoutJson := [.obj [("success", .bool false),
        ("error", .str "HUGGINGFACE_API_KEY not found in environment variables")]],
      exitCode := 1, uncaught := false, netCalls := 0 }

/-! ### Speech adapter (`src/server/Engine/voice.py`) -/

/-- Outcome of the primary (Hugging Face `InferenceClient.text_to_speech`)
call: audio bytes, or an exception with `str(e)`. -/
inductive HFOutcome where
  | ok (audio : List Nat)
  | raises (msg : String)

/-- Outcome of the fallback (`gTTS` synthesis into a `BytesIO` buffer):
audio bytes, or an exception with `str(e)`. -/
inductive GTTSOutcome where
  | ok (audio : List Nat)
  | raises (msg : String)

/-- The external synthesis attempts a run of `voice.py` can make. -/
inductive CallEvent where
  | hfCall
  | gttsCall
deriving DecidableEq

/-- Rendering str(e) of the exception `voice.py` raises itself when the credential is
missing: `raise Exception("HUGGINGFACE_API_KEY not found")`. -/
def hfMissingMsg : String := "HUGGINGFACE_API_KEY not found"

/-- The fallback branch of `voice.py` (`except Exception as hf_error`): a gTTS
attempt whose success envelope notes the truncated primary failure, and whose
failure produces the joint-failure envelope with both messages truncated. -/
def voiceFallback (userText hfErrMsg : String) (gtts : GTTSOutcome) :
    ProcOutcome :=
  match gtts with
  | .ok audio =>
      { stdoutJson := [.obj [("success", .bool true),
          ("audio_data", .str ("data:audio/mpeg;base64," ++ base64Encode audio)),
          ("text", .str userText),
          ("note", .str ("Audio generated using Google TTS (HF fallback: "
            ++ pyTrunc hfErrMsg 100 ++ ")"))]],
        exitCode := 0, uncaught := false, netCalls := 1 }
  | .raises gttsMsg =>
      { stdoutJson := [.obj [("success", .bool false),
          ("error", .str ("Both HF and gTTS failed. HF: " ++ pyTrunc hfErrMsg 50
            ++ ", gTTS: " ++ pyTrunc gttsMsg 50))]],
        exitCode := 0, uncaught := false, netCalls := 1 }

/-- The whole run of `voice.py` after the user text has been acquired,
returning the process outcome together with the ordered trace of synthesis
attempts.  When the credential is truthy the primary call is made; on its
success the Kokoro envelope is printed; any primary exception (including the
explicit `raise` when the credential is falsy) enters the fallback branch. -/
def voiceAdapter (hfToken : Option String) (userText : String)
    (hf : HFOutcome) (gtts : GTTSOutcome) : ProcOutcome × List CallEvent :=
  if credTruthy hfToken then
    match hf with
    | .ok audio =>
        ({ stdoutJson := [.obj [("success", .bool true),
             ("audio_data", .str ("data:audio/wav;base64," ++ base64Encode audio)),
             ("text", .str userText),
             ("note", .str "Audio generated using Kokoro-82M TTS model")]],
           exitCode := 0, uncaught := false, netCalls := 1 },
         [.hfCall])
    | .raises msg =>
        let fb := voiceFallback userText msg gtts
        ({ fb with netCalls := fb.netCalls + 1 }, [.hfCall, .gttsCall])
  else
    (voiceFallback userText hfMissingMsg gtts, [.gttsCall])

/-! ### Helper lemmas -/

/-- Python slicing `s[:n]` yields at most `n` characters. -/
theorem pyTrunc_length_le (s : String) (n : Nat) : (pyTrunc s n).length ≤ n := by
  show (s.toList.take n).length ≤ n
  rw [List.length_take]
  exact Nat.min_le_left ..

/-- Every base64 digit is drawn from the base64 alphabet. -/
theorem b64Char_mem (n : Nat) : b64Char n ∈ base64Chars.toList := by
  unfold b64Char
  rcases h : base64Chars.toList.get? n with _ | c
  · simp only [List.getD, h, Option.getD_none]
    decide
  · simpa only [List.getD, h, Option.getD_some] using List.get?_mem h

/-- The function base64Encode emits only base64 alphabet characters and `=` padding. -/
theorem base64Encode_valid :
    ∀ (bs : List Nat), ∀ c ∈ (base64Encode bs).toList,
      c ∈ base64Chars.toList ∨ c = '='
  | [] => by simp [base64Encode]
  | [b1] => by
      intro c hc
      simp only [base64Encode, String.toList, List.mem_cons,
        List.not_mem_nil, or_false] at hc
      rcases hc with h | h | h | h
      · exact Or.inl (h ▸ b64Char_mem _)
      · exact Or.inl (h ▸ b64Char_mem _)
      · exact Or.inr h
      · exact Or.inr h
  | [b1, b2] => by
      intro c hc
      simp only [base64Encode, String.toList, List.mem_cons,
        List.not_mem_nil, or_false] at hc
      rcases hc with h | h | h | h
      · exact Or.inl (h ▸ b64Char_mem _)
      · exact Or.inl (h ▸ b64Char_mem _)
      · exact Or.inl (h ▸ b64Char_mem _)
      · exact Or.inr h
  | b1 :: b2 :: b3 :: rest => by
      intro c hc
      have hsplit : (base64Encode (b1 :: b2 :: b3 :: rest)).toList
          = [b64Char (b1 / 4 % 64), b64Char (b1 % 4 * 16 + b2 / 16 % 16),
             b64Char (b2 % 16 * 4 + b3 / 64 % 4), b64Char (b3 % 64)]
            ++ (base64Encode rest).toList := by
        simp [base64Encode, String.toList, String.data_append]
      rw [hsplit, List.mem_append] at hc
      rcases hc with h | h
      · simp only [List.mem_cons, List.not_mem_nil, or_false] at h
        rcases h with h | h | h | h
        · exact Or.inl (h ▸ b64Char_mem _)
        · exact Or.inl (h ▸ b64Char_mem _)
        · exact Or.inl (h ▸ b64Char_mem _)
        · exact Or.inl (h ▸ b64Char_mem _)
      · exact base64Encode_valid rest c h

/-! ### Claim theorems -/

/-- Claim C3: the image adapter maps upstream HTTP status 200 to a success
envelope whose `image_data` is the `data:image/png;base64,` prefix followed by
the base64 encoding of the response bytes (valid base64: alphabet characters
and `=` padding only) and whose `prompt` echoes the input; status 503 to a
failure envelope with the message `Model is loading, please try again in a few
minutes`; and any other status to a failure envelope whose error string is
`API Error <status>: <body text>`, containing the literal status code and the
response body. -/
theorem C3_image_status_mapping (apiKey userPrompt text : String)
    (content : List Nat) (status : Nat) (hk : apiKey ≠ "") :
    (firstOut (imageAdapter (some apiKey) userPrompt
        (.responds 200 content text))).lookup "success" = some (.bool true) ∧
    (firstOut (imageAdapter (some apiKey) userPrompt
        (.responds 200 content text))).lookup "image_data"
      = some (.str ("data:image/png;base64," ++ base64Encode content)) ∧
    (∀ c ∈ (base64Encode content).toList, c ∈ base64Chars.toList ∨ c = '=') ∧
    (firstOut (imageAdapter (some apiKey) userPrompt
        (.responds 200 content text))).lookup "prompt"
      = some (.str userPrompt) ∧
    (firstOut (imageAdapter (some apiKey) userPrompt
        (.responds 503 content text))).lookup "success" = some (.bool false) ∧
    (firstOut (imageAdapter (some apiKey) userPrompt
        (.responds 503 content text))).lookup "error"
      = some (.str "Model is loading, please try again in a few minutes") ∧
    (status ≠ 200 → status ≠ 503 →
      (firstOut (imageAdapter (some apiKey) userPrompt
          (.responds status content text))).lookup "success"
        = some (.bool false) ∧
      (firstOut (imageAdapter (some apiKey) userPrompt
          (.responds status content text))).lookup "error"
        = some (.str ("API Error " ++ toString status ++ ": " ++ text))) := by
  have hcred : credTruthy (some apiKey) = true := by
    simp [credTruthy, hk]
  refine ⟨?_, ?_, base64Encode_valid content, ?_, ?_, ?_, ?_⟩
  · simp [imageAdapter, hcred, firstOut, Json.lookup, List.lookup]
  · simp [imageAdapter, hcred, firstOut, Json.lookup, List.lookup]
  · simp [imageAdapter, hcred, firstOut, Json.lookup, List.lookup]
  · simp [imageAdapter, hcred, firstOut, Json.lookup, List.lookup]
  · simp [imageAdapter, hcred, firstOut, Json.lookup, List.lookup]
  · intro h200 h503
    simp [imageAdapter, hcred, firstOut, Json.lookup, List.lookup, h200, h503]

/-- Witness for C3 at concrete inputs: the 503 scenario from the spec and a
404 response. -/
theorem C3_image_status_mapping_witness :
    (firstOut (imageAdapter (some "k") "a red fox"
        (.responds 503 [] "body"))).lookup "error"
      = some (.str "Model is loading, please try again in a few minutes") ∧
    (firstOut (imageAdapter (some "k") "a red fox"
        (.responds 404 [] "body"))).lookup "error"
      = some (.str ("API Error " ++ toString 404 ++ ": " ++ "body")) :=
  ⟨(C3_image_status_mapping "k" "a red fox" "body" [] 404
      (by decide)).2.2.2.2.2.1,
   ((C3_image_status_mapping "k" "a red fox" "body" [] 404
      (by decide)).2.2.2.2.2.2 (by decide) (by decide)).2⟩

/-- Claim C9: the speech adapter makes at most two synthesis attempts, strictly
in sequence (the trace is `[hf]`, `[hf, gtts]` or `[gtts]`); the gTTS fallback
occurs only when the primary path failed (falsy credential or a primary
exception); and when the primary path succeeds the fallback is never
invoked. -/
theorem C9_voice_call_sequencing (hfToken : Option String) (userText : String)
    (hf : HFOutcome) (gtts : GTTSOutcome) :
    ((voiceAdapter hfToken userText hf gtts).2 = [.hfCall] ∨
     (voiceAdapter hfToken userText hf gtts).2 = [.hfCall, .gttsCall] ∨
     (voiceAdapter hfToken userText hf gtts).2 = [.gttsCall]) ∧
    (voiceAdapter hfToken userText hf gtts).2.length ≤ 2 ∧
    (∀ audio, credTruthy hfToken = true → hf = .ok audio →
      (voiceAdapter hfToken userText hf gtts).2 = [.hfCall]) ∧
    (CallEvent.gttsCall ∈ (voiceAdapter hfToken userText hf gtts).2 →
      credTruthy hfToken = false ∨ ∃ msg, hf = .raises msg) := by
  cases h : credTruthy hfToken <;> cases hf <;>
    simp [voiceAdapter, h]

/-- Witness for C9: with a truthy credential and a successful primary call the
trace is exactly one primary attempt. -/
theorem C9_voice_call_sequencing_witness :
    (voiceAdapter (some "k") "hi" (.ok [1]) (.ok [2])).2 = [CallEvent.hfCall] :=
  (C9_voice_call_sequencing (some "k") "hi" (.ok [1]) (.ok [2])).2.2.1
    [1] (by decide) rfl

/-- Claim C10: a credential set to the empty string behaves identically to an
absent credential in all three adapters (Python truthiness check): the text
and image adapters emit their missing-credential failure envelope and exit 1
without any network call, and the speech adapter goes straight to the gTTS
fallback. -/
theorem C10_empty_credential (input : String) (tu : TextUpstream)
    (iu : ImageUpstream) (hf : HFOutcome) (gtts : GTTSOutcome) :
    textAdapter (some "") input tu = textAdapter none input tu ∧
    imageAdapter (some "") input iu = imageAdapter none input iu ∧
    voiceAdapter (some "") input hf gtts = voiceAdapter none input hf gtts ∧
    (textAdapter (some "") input tu).exitCode = 1 ∧
    (textAdapter (some "") input tu).netCalls = 0 ∧
    (firstOut (textAdapter (some "") input tu)).lookup "error"
      = some (.str "HUGGINGFACE_API_KEY environment variable not found") ∧
    (imageAdapter (some "") input iu).exitCode = 1 ∧
    (imageAdapter (some "") input iu).netCalls = 0 ∧
    (firstOut (imageAdapter (some "") input iu)).lookup "error"
      = some (.str "HUGGINGFACE_API_KEY not found in environment variables") ∧
    (voiceAdapter (some "") input hf gtts).2 = [CallEvent.gttsCall] :=
  ⟨rfl, rfl, rfl, rfl, rfl, rfl, rfl, rfl, rfl, rfl⟩

/-- Claim C4: with the primary credential absent, the speech adapter's envelope
has `success = true` iff the gTTS fallback succeeds; on fallback success the
payload is a `data:audio/mpeg;base64,` data URI and the `note` field is the
fallback indicator carrying the reason the primary path was abandoned (the
missing-credential message), truncated to at most 100 characters.  (The model
has no filesystem effect: the audio bytes flow only through the in-memory
value, matching the `BytesIO` buffer in the code.) -/
theorem C4_voice_fallback_no_credential (userText : String) (hf : HFOutcome)
    (gtts : GTTSOutcome) :
    ((firstOut (voiceAdapter none userText hf gtts).1).lookup "success"
        = some (.bool true) ↔ ∃ audio, gtts = .ok audio) ∧
    (∀ audio, gtts = .ok audio →
      (firstOut (voiceAdapter none userText hf gtts).1).lookup "audio_data"
          = some (.str ("data:audio/mpeg;base64," ++ base64Encode audio)) ∧
      (firstOut (voiceAdapter none userText hf gtts).1).lookup "note"
          = some (.str ("Audio generated using Google TTS (HF fallback: "
              ++ pyTrunc hfMissingMsg 100 ++ ")")) ∧
      (pyTrunc hfMissingMsg 100).length ≤ 100) := by
  cases gtts with
  | ok audio =>
      refine ⟨?_, ?_⟩
      · simp [voiceAdapter, credTruthy, voiceFallback, firstOut, Json.lookup,
          List.lookup]
      · intro a ha
        cases ha
        exact ⟨rfl, rfl, pyTrunc_length_le ..⟩
  | raises m =>
      refine ⟨?_, ?_⟩
      · simp [voiceAdapter, credTruthy, voiceFallback, firstOut, Json.lookup,
          List.lookup]
      · intro a ha
        cases ha

/-- Witness for C4: concrete fallback success with no credential. -/
theorem C4_voice_fallback_no_credential_witness :
    (firstOut (voiceAdapter none "hello" (.raises "unused")
        (.ok [10, 20, 30])).1).lookup "audio_data"
      = some (.str ("data:audio/mpeg;base64," ++ base64Encode [10, 20, 30])) :=
  ((C4_voice_fallback_no_credential "hello" (.raises "unused")
      (.ok [10, 20, 30])).2 [10, 20, 30] rfl).1

/-- Claim C5: when the primary synthesis raises and the gTTS fallback also
raises, the speech adapter prints a single failure envelope whose error
concatenates both error summaries, each truncated to at most 50 characters;
the same shape results when the primary failure is the missing-credential
exception. -/
theorem C5_voice_joint_failure (apiKey userText hfMsg gttsMsg : String)
    (hk : apiKey ≠ "") :
    (voiceAdapter (some apiKey) userText (.raises hfMsg)
        (.raises gttsMsg)).1.stdoutJson
      = [.obj [("success", .bool false),
          ("error", .str ("Both HF and gTTS failed. HF: " ++ pyTrunc hfMsg 50
            ++ ", gTTS: " ++ pyTrunc gttsMsg 50))]] ∧
    (voiceAdapter none userText (.raises hfMsg) (.raises gttsMsg)).1.stdoutJson
      = [.obj [("success", .bool false),
          ("error", .str ("Both HF and gTTS failed. HF: "
            ++ pyTrunc hfMissingMsg 50 ++ ", gTTS: " ++ pyTrunc gttsMsg 50))]] ∧
    (pyTrunc hfMsg 50).length ≤ 50 ∧ (pyTrunc gttsMsg 50).length ≤ 50 := by
  have hcred : credTruthy (some apiKey) = true := by
    simp [credTruthy, hk]
  refine ⟨?_, rfl, pyTrunc_length_le .., pyTrunc_length_le ..⟩
  simp [voiceAdapter, hcred, voiceFallback]

/-- Witness for C5 at concrete messages. -/
theorem C5_voice_joint_failure_witness :
    (voiceAdapter (some "k") "hi" (.raises "boom") (.raises "down")).1.stdoutJson
      = [.obj [("success", .bool false),
          ("error", .str ("Both HF and gTTS failed. HF: " ++ pyTrunc "boom" 50
            ++ ", gTTS: " ++ pyTrunc "down" 50))]] :=
  (C5_voice_joint_failure "k" "hi" "boom" "down" (by decide)).1

/-- Claim C1 counterexample: with a truthy credential, a transport error raised
by the image adapter's `requests.post` call (which sits outside any `try`
block) escapes uncaught — nothing is printed to standard output, refuting
"every invocation emits exactly one JSON object ... in particular ... even
when the HTTP request itself raises a transport error". -/
theorem C1_image_transport_error_uncaught :
    (imageAdapter (some "k") "a red fox" (.raises "connection error")).stdoutJson
        = [] ∧
    (imageAdapter (some "k") "a red fox"
        (.raises "connection error")).uncaught = true :=
  ⟨rfl, rfl⟩

/-- Claim C1 amended: the text and speech adapters always print exactly one JSON
envelope, and so does the image adapter whenever its HTTP call returns a
response (any status); but when the image adapter's HTTP request itself
raises, the exception escapes uncaught and no JSON object is printed. -/
theorem C1_amended_single_envelope (apiKey hfToken : Option String)
    (input : String) (tu : TextUpstream) (hf : HFOutcome) (gtts : GTTSOutcome)
    (status : Nat) (content : List Nat) (text msg : String) :
    (textAdapter apiKey input tu).stdoutJson.length = 1 ∧
    (voiceAdapter hfToken input hf gtts).1.stdoutJson.length = 1 ∧
    (imageAdapter apiKey input (.responds status content text)).stdoutJson.length
      = 1 ∧
    (credTruthy apiKey = true →
      (imageAdapter apiKey input (.raises msg)).stdoutJson = [] ∧
      (imageAdapter apiKey input (.raises msg)).uncaught = true) := by
  refine ⟨?_, ?_, ?_, ?_⟩
  · cases h : credTruthy apiKey
    · simp [textAdapter, h]
    · cases tu with
      | requestError m => simp [textAdapter, h]
      | otherError m => simp [textAdapter, h]
      | ok body =>
          rcases he : extractContent body with e | c
          · cases e <;> simp [textAdapter, h, he]
          · simp [textAdapter, h, he]
  · cases h : credTruthy hfToken <;> cases hf <;> cases gtts <;>
      simp [voiceAdapter, h, voiceFallback]
  · cases h : credTruthy apiKey
    · simp [imageAdapter, h]
    · by_cases h200 : status = 200
      · simp [imageAdapter, h, h200]
      · by_cases h503 : status = 503
        · simp [imageAdapter, h, h200, h503]
        · simp [imageAdapter, h, h200, h503]
  · intro h
    exact ⟨by simp [imageAdapter, h], by simp [imageAdapter, h]⟩

/-- Witness for C1 amended: concrete runs of each adapter. -/
theorem C1_amended_single_envelope_witness :
    (textAdapter (some "k") "q" (.requestError "e")).stdoutJson.length = 1 ∧
    (imageAdapter (some "k") "q" (.raises "e")).stdoutJson = [] :=
  ⟨(C1_amended_single_envelope (some "k") none "q" (.requestError "e")
      (.raises "x") (.raises "y") 200 [] "t" "e").1,
   ((C1_amended_single_envelope (some "k") none "q" (.requestError "e")
      (.raises "x") (.raises "y") 200 [] "t" "e").2.2.2 (by decide)).1⟩

/-- Claim C2 counterexample: with no credential, the speech adapter does not
emit a failure envelope and exit non-zero — it runs the gTTS fallback (a
network call) and, when that succeeds, prints a success envelope and exits 0,
refuting "this holds identically for the text, image, and speech adapters". -/
theorem C2_speech_no_credential_fallback :
    (voiceAdapter none "hello" (.raises "unused") (.ok [7])).1.exitCode = 0 ∧
    (firstOut (voiceAdapter none "hello" (.raises "unused")
        (.ok [7])).1).lookup "success" = some (.bool true) ∧
    (voiceAdapter none "hello" (.raises "unused") (.ok [7])).2
      = [CallEvent.gttsCall] ∧
    (voiceAdapter none "hello" (.raises "unused") (.ok [7])).1.netCalls = 1 :=
  ⟨rfl, rfl, rfl, rfl⟩

/-- Claim C2 amended: with the credential absent, the text and image adapters
emit a failure envelope and exit 1 before any network call; the speech adapter
instead skips the primary call and attempts the gTTS fallback, succeeding iff
the fallback succeeds. -/
theorem C2_amended_missing_credential (input : String) (tu : TextUpstream)
    (iu : ImageUpstream) (hf : HFOutcome) (gtts : GTTSOutcome) :
    (textAdapter none input tu).exitCode = 1 ∧
    (textAdapter none input tu).netCalls = 0 ∧
    (firstOut (textAdapter none input tu)).lookup "success"
      = some (.bool false) ∧
    (imageAdapter none input iu).exitCode = 1 ∧
    (imageAdapter none input iu).netCalls = 0 ∧
    (firstOut (imageAdapter none input iu)).lookup "success"
      = some (.bool false) ∧
    (voiceAdapter none input hf gtts).2 = [CallEvent.gttsCall] ∧
    ((firstOut (voiceAdapter none input hf gtts).1).lookup "success"
      = some (.bool true) ↔ ∃ audio, gtts = .ok audio) := by
  refine ⟨rfl, rfl, rfl, rfl, rfl, rfl, rfl, ?_⟩
  cases gtts <;>
    simp [voiceAdapter, credTruthy, voiceFallback, firstOut, Json.lookup,
      List.lookup]

/-- Witness for C2 amended: concrete fallback success and concrete text-adapter
refusal. -/
theorem C2_amended_missing_credential_witness :
    (textAdapter none "q" (.ok (.obj []))).exitCode = 1 ∧
    (firstOut (voiceAdapter none "q" (.raises "x") (.ok [1])).1).lookup "success"
      = some (.bool true) :=
  ⟨(C2_amended_missing_credential "q" (.ok (.obj [])) (.raises "y")
      (.raises "x") (.ok [1])).1,
   (C2_amended_missing_credential "q" (.ok (.obj [])) (.raises "y")
      (.raises "x") (.ok [1])).2.2.2.2.2.2.2.mpr ⟨[1], rfl⟩⟩

/-- Claim C6 counterexample: a failure envelope of the text adapter (here, the
missing-key envelope for a response without `choices`) has no `prompt` field
at all, refuting "always contains a prompt field echoing the original input
verbatim, including in failure envelopes". -/
theorem C6_failure_envelope_lacks_prompt :
    (firstOut (textAdapter (some "k") "Explain gravity"
        (.ok (.obj [])))).lookup "prompt" = none ∧
    (firstOut (textAdapter (some "k") "Explain gravity"
        (.ok (.obj [])))).lookup "error"
      = some (.str "Error extracting response: 'choices'") ∧
    (firstOut (textAdapter (some "k") "Explain gravity"
        (.ok (.obj [])))).lookup "success" = some (.bool false) :=
  ⟨rfl, rfl, rfl⟩

/-- Claim C6 amended: the text adapter's output object contains exactly one of
`content` (success) or `error` (failure), never both; the success envelope
echoes the original input verbatim in `prompt`, but failure envelopes carry no
`prompt` field. -/
theorem C6_amended_envelope_fields (apiKey : Option String) (input : String)
    (tu : TextUpstream) :
    (((firstOut (textAdapter apiKey input tu)).lookup "content").isSome
        ↔ ((firstOut (textAdapter apiKey input tu)).lookup "error") = none) ∧
    ((firstOut (textAdapter apiKey input tu)).lookup "success"
        = some (.bool true) →
      (firstOut (textAdapter apiKey input tu)).lookup "prompt"
        = some (.str input)) ∧
    ((firstOut (textAdapter apiKey input tu)).lookup "success"
        = some (.bool false) →
      (firstOut (textAdapter apiKey input tu)).lookup "prompt" = none) := by
  cases h : credTruthy apiKey
  · simp [textAdapter, h, firstOut, Json.lookup, List.lookup]
  · cases tu with
    | requestError m => simp [textAdapter, h, firstOut, Json.lookup, List.lookup]
    | otherError m => simp [textAdapter, h, firstOut, Json.lookup, List.lookup]
    | ok body =>
        rcases he : extractContent body with e | c
        · cases e <;>
            simp [textAdapter, h, he, firstOut, Json.lookup, List.lookup]
        · simp [textAdapter, h, he, firstOut, Json.lookup, List.lookup]

/-- Witness for C6 amended: concrete success and failure runs. -/
theorem C6_amended_envelope_fields_witness :
    (firstOut (textAdapter (some "k") "Explain gravity"
        (.ok (.obj [("choices", .arr [.obj [("message",
          .obj [("content", .str "a paragraph")])]])])))).lookup "prompt"
      = some (.str "Explain gravity") :=
  (C6_amended_envelope_fields (some "k") "Explain gravity"
    (.ok (.obj [("choices", .arr [.obj [("message",
      .obj [("content", .str "a paragraph")])]])]))).2.1 rfl

/-- Claim C7 counterexample: when the upstream response is well-formed JSON with
an empty `choices` list, indexing `[0]` raises `IndexError`, which the
`except KeyError` handler does not catch; the outer handler prints a generic
script-execution failure envelope WITHOUT the raw response object (and exits
1), refuting "this holds for every malformed response shape". -/
theorem C7_empty_choices_no_raw_response :
    (firstOut (textAdapter (some "k") "q"
        (.ok (.obj [("choices", .arr [])])))).lookup "response" = none ∧
    (firstOut (textAdapter (some "k") "q"
        (.ok (.obj [("choices", .arr [])])))).lookup "error"
      = some (.str "Script execution error: list index out of range") ∧
    (textAdapter (some "k") "q" (.ok (.obj [("choices", .arr [])]))).exitCode
      = 1 :=
  ⟨rfl, rfl, rfl⟩

/-- Claim C7 amended: when the upstream call succeeds but extraction raises a
`KeyError` (a missing key at any level), the text adapter emits a failure
envelope naming the missing key and carrying the raw upstream response under
`response`, and exits 0; other malformed shapes (such as an empty `choices`
list) instead take the generic script-execution path without the raw
response. -/
theorem C7_amended_key_error_diagnostics (apiKey input : String) (body : Json)
    (shown : String) (hk : apiKey ≠ "")
    (he : extractContent body = .error (.keyError shown)) :
    (firstOut (textAdapter (some apiKey) input (.ok body))).lookup "error"
      = some (.str ("Error extracting response: " ++ shown)) ∧
    (firstOut (textAdapter (some apiKey) input (.ok body))).lookup "response"
      = some body ∧
    (textAdapter (some apiKey) input (.ok body)).exitCode = 0 := by
  have hcred : credTruthy (some apiKey) = true := by
    simp [credTruthy, hk]
  refine ⟨?_, ?_, ?_⟩ <;>
    simp [textAdapter, hcred, he, firstOut, Json.lookup, List.lookup]

/-- Witness for C7 amended: a response missing `choices` entirely. -/
theorem C7_amended_key_error_diagnostics_witness :
    (firstOut (textAdapter (some "k") "q" (.ok (.obj [])))).lookup "response"
      = some (.obj []) :=
  (C7_amended_key_error_diagnostics "k" "q" (.obj []) "'choices'"
    (by decide) rfl).2.1

/-- Claim C8 counterexample: the text adapter, with a truthy credential and a
successful upstream response whose `choices` list is empty, emits a JSON
envelope mid-flow AND exits 1 — a non-zero exit that is neither a
missing-credential detection nor a request exception, refuting "a non-zero
exit code occurs only in two cases". -/
theorem C8_midflow_envelope_nonzero_exit :
    (textAdapter (some "k") "hello"
        (.ok (.obj [("choices", .arr [])]))).stdoutJson.length = 1 ∧
    (textAdapter (some "k") "hello"
        (.ok (.obj [("choices", .arr [])]))).exitCode = 1 :=
  ⟨rfl, rfl⟩

/-- Claim C8 amended: exit-code characterization.  The text adapter exits 0 iff
the credential is truthy, the request succeeded, and extraction did not raise
a non-`KeyError` exception (so missing-credential, request exceptions, and
generic script-execution errors all exit 1, the last also emitting an envelope
mid-flow); the image adapter exits 0 iff the credential is truthy and the HTTP
call returned a response; the speech adapter always exits 0. -/
theorem C8_amended_exit_codes (apiKey hfToken : Option String) (input : String)
    (tu : TextUpstream) (iu : ImageUpstream) (hf : HFOutcome)
    (gtts : GTTSOutcome) :
    ((textAdapter apiKey input tu).exitCode = 0 ↔
      credTruthy apiKey = true ∧ ∃ body, tu = .ok body ∧
        ∀ msg, extractContent body ≠ .error (.other msg)) ∧
    ((imageAdapter apiKey input iu).exitCode = 0 ↔
      credTruthy apiKey = true ∧ ∃ s c t, iu = .responds s c t) ∧
    (voiceAdapter hfToken input hf gtts).1.exitCode = 0 := by
  refine ⟨?_, ?_, ?_⟩
  · cases h : credTruthy apiKey
    · simp [textAdapter, h]
    · cases tu with
      | requestError m => simp [textAdapter, h]
      | otherError m => simp [textAdapter, h]
      | ok body =>
          rcases he : extractContent body with e | c
          · cases e with
            | keyError shown => simp [textAdapter, h, he]
            | other m =>
                simp [textAdapter, h, he]
          · simp [textAdapter, h, he]
  · cases h : credTruthy apiKey
    · simp [imageAdapter, h]
    · cases iu with
      | raises m => simp [imageAdapter, h]
      | responds s c t =>
          by_cases h200 : s = 200
          · simp [imageAdapter, h, h200]
          · by_cases h503 : s = 503
            · simp [imageAdapter, h, h200, h503]
            · simp [imageAdapter, h, h200, h503]
  · cases h : credTruthy hfToken <;> cases hf <;> cases gtts <;>
      simp [voiceAdapter, h, voiceFallback]

/-- Witness for C8 amended: a concrete 200-status image run exits 0. -/
theorem C8_amended_exit_codes_witness :
    (imageAdapter (some "k") "q" (.responds 200 [1] "t")).exitCode = 0 :=
  (C8_amended_exit_codes (some "k") none "q" (.ok (.obj []))
      (.responds 200 [1] "t") (.raises "x") (.raises "y")).2.1.mpr
    ⟨by decide, 200, [1], "t", rfl⟩

end MultiTool
